import Mathlib

/-!
Shallow embedding of `src/main.rs` of the openweathermap-exporter
repository, together with proofs settling the frozen claims about its
specification.

Modelling conventions:
  - Rust `f32`/`f64` values are modelled by `OWM.Dec`, a signed decimal
    number `m / 10^e`; its `render` function models the decimal `Display`
    output used when the code interpolates a number into the exposition
    text.  No claim performs floating-point arithmetic: the formatter only
    copies values through, so this representation is faithful for every
    claim considered here.
  - Rust `u32`/`u16`/`usize` are modelled by `Nat`.
  - `Option<T>` is `Option T`; the `MaybeReport` enum is embedded verbatim.
  - The `export!` macro expands to sequential `push_str` calls of the
    `export` helper; its expansion is embedded as the list `reportCalls`
    of metric calls, concatenated by `concatLines`.
  - The `RwLock` used for the outcome cell is modelled by a small state
    machine (`LockState`) with the semantics of `std::sync::RwLock`:
    `try_write` succeeds exactly when no reader and no writer holds the
    lock, and never blocks; `read` succeeds when no writer holds it.
-/

namespace OWM

/-- Decimal number `m / 10 ^ e`, modelling the numeric values (`f32`,
`f64` and integers converted into them) that the exporter renders. -/
structure Dec where
  m : Int
  e : Nat
deriving DecidableEq, Repr

/-- Decimal digit character for `n % 10`. -/
def digitChar (n : Nat) : Char := Char.ofNat (48 + n % 10)

/-- Fuelled most-significant-first decimal digit expansion. -/
def natDigitsAux : Nat → Nat → List Char
  | 0, _ => []
  | fuel + 1, n =>
    if n < 10 then [digitChar n]
    else natDigitsAux fuel (n / 10) ++ [digitChar (n % 10)]

/-- Decimal digits of a natural number, most significant first. -/
def natDigits (n : Nat) : List Char := natDigitsAux (n + 1) n

/-- Decimal string of a natural number; models Rust integer `Display`. -/
def natToStr (n : Nat) : String := String.mk (natDigits n)

/-- Left-pad a digit list with zeros up to the given length. -/
def padZeros (s : List Char) (len : Nat) : List Char :=
  List.replicate (len - s.length) '0' ++ s

/-- Decimal rendering of a `Dec` value; models the Rust `Display`
output of the numeric value interpolated into a metric line. -/
def Dec.render (d : Dec) : String :=
  let sign := if d.m < 0 then "-" else ""
  let n := d.m.natAbs
  if d.e = 0 then sign ++ natToStr n
  else
    sign ++ natToStr (n / 10 ^ d.e) ++ "." ++
      String.mk (padZeros (natDigits (n % 10 ^ d.e)) d.e)

/-- Embeds an integer-valued field (Rust `u32`/`usize` into `f64`). -/
def Dec.ofNat (n : Nat) : Dec := ⟨n, 0⟩

/-- The literal value `0` exported on success. -/
def decZero : Dec := ⟨0, 0⟩

/-- The literal value `1` exported on failure and for conditions. -/
def decOne : Dec := ⟨1, 0⟩

/-- The `Units` enum of `main.rs`. -/
inductive Units where
  | Kelvin
  | Imperial
  | Metric
deriving DecidableEq, Repr

/-- `Units::api_param` from `main.rs`. -/
def Units.api_param : Units → Option String
  | .Kelvin => none
  | .Metric => some "metric"
  | .Imperial => some "imperial"

/-- `Units::units_pressure` from `main.rs`. -/
def Units.units_pressure (_ : Units) : String := "hPa"

/-- `Units::units_temp` from `main.rs`. -/
def Units.units_temp : Units → String
  | .Kelvin => "k"
  | .Metric => "c"
  | .Imperial => "f"

/-- `Units::units_speed` from `main.rs`. -/
def Units.units_speed : Units → String
  | .Kelvin => "m/s"
  | .Metric => "m/s"
  | .Imperial => "mph"

/-- The `Coordinates` struct of `main.rs` (`f32` fields as `Dec`). -/
structure Coordinates where
  lat : Dec
  lon : Dec
deriving DecidableEq, Repr

/-- The `Options` struct of `main.rs` (command-line configuration). -/
structure Options where
  coords : Coordinates
  units : Units
  api_key : String
  interval : Dec
  backoff_interval : Dec
  port : Nat
  location : Option String
deriving DecidableEq, Repr

/-- The `ReportCondition` struct of `main.rs`. -/
structure ReportCondition where
  id : Nat
  main : String
  description : String
  icon : String
deriving DecidableEq, Repr

/-- The `ReportMain` struct of `main.rs`. -/
structure ReportMain where
  temp : Dec
  feels_like : Dec
  temp_min : Dec
  temp_max : Dec
  pressure : Dec
  humidity : Dec
deriving DecidableEq, Repr

/-- The `ReportWind` struct of `main.rs`. -/
structure ReportWind where
  speed : Dec
  deg : Nat
deriving DecidableEq, Repr

/-- The `ReportRain` struct of `main.rs`. -/
structure ReportRain where
  volume_1h : Option Dec
  volume_3h : Option Dec
deriving DecidableEq, Repr

/-- The `ReportSnow` struct of `main.rs`. -/
structure ReportSnow where
  volume_1h : Option Dec
  volume_3h : Option Dec
deriving DecidableEq, Repr

/-- The `ReportClouds` struct of `main.rs`. -/
structure ReportClouds where
  all : Nat
deriving DecidableEq, Repr

/-- The `Report` struct of `main.rs` (one parsed weather reading). -/
structure Report where
  coord : Coordinates
  weather : List ReportCondition
  main : ReportMain
  wind : ReportWind
  rain : ReportRain
  snow : ReportSnow
  clouds : ReportClouds
  visibility : Option Nat
deriving DecidableEq, Repr

/-- The `MaybeReport` enum of `main.rs`: the tri-state outcome held by
the outcome cell. -/
inductive MaybeReport where
  | Ok (report : Report)
  | Err (status : Option Nat)
  | None
deriving DecidableEq, Repr

/-- Label list actually rendered by `export` in `main.rs`: the caller's
labels, with the configured `location` label appended when present. -/
def effectiveLabels (opts : Options) (labels : List (String × String)) :
    List (String × String) :=
  match opts.location with
  | some location => labels ++ [("location", location)]
  | none => labels

/-- One `key="value"` fragment of the label block. -/
def renderLabelPair (kv : String × String) : String :=
  kv.1 ++ "=\"" ++ kv.2 ++ "\""

/-- The comma-separated pair list built by the loop in `export` (a comma
is pushed before every pair except the first). -/
def renderLabelPairs : List (String × String) → String
  | [] => ""
  | [kv] => renderLabelPair kv
  | kv :: rest => renderLabelPair kv ++ "," ++ renderLabelPairs rest

/-- The label block of a line: empty when no labels apply, otherwise the
brace-delimited pair list, exactly as built by `export` in `main.rs`. -/
def renderLabelBlock (l : List (String × String)) : String :=
  if l.isEmpty then ""
  else "\x7b" ++ renderLabelPairs l ++ "\x7d"

/-- The `export` function of `main.rs`: formats one prometheus metric
line from a name, a numeric value and a label list, appending the
configured location label.  (Named `exportMetric` because `export` is a
keyword of the host language.) -/
def exportMetric (opts : Options) (name : String) (value : Dec)
    (labels : List (String × String)) : String :=
  name ++ renderLabelBlock (effectiveLabels opts labels) ++ " " ++
    value.render ++ "\n"

/-- One invocation of the `export!` helper inside `export_report`. -/
structure MetricCall where
  name : String
  value : Dec
  labels : List (String × String)
deriving DecidableEq, Repr

/-- Sequential concatenation of rendered lines, modelling the repeated
`push_str` calls of `export_report`. -/
def concatLines : List String → String
  | [] => ""
  | s :: rest => s ++ concatLines rest

/-- The two optional precipitation lines guarded by `if let Some(volume)`
in `export_report` (one such guard per period and per precipitation
kind; an absent volume emits nothing). -/
def precipCalls (name period : String) (vol : Option Dec) : List MetricCall :=
  match vol with
  | some v => [⟨name, v, [("period", period), ("unit", "mm")]⟩]
  | none => []

/-- The per-condition loop of `export_report`: one `owm_condition` line
with value `1` per condition descriptor, tagged with its description. -/
def conditionCalls (weather : List ReportCondition) : List MetricCall :=
  weather.map (fun c => ⟨"owm_condition", decOne, [("kind", c.description)]⟩)

/-- The optional visibility line of `export_report` (note the `owm_visiblity`
spelling is the source's own). -/
def visibilityCalls : Option Nat → List MetricCall
  | some v => [⟨"owm_visiblity", Dec.ofNat v, [("unit", "meters")]⟩]
  | none => []

/-- The sequence of `export!` invocations performed by `export_report`
in `main.rs`, in source order, for each `MaybeReport` variant. -/
def reportCalls (report : MaybeReport) (opts : Options) : List MetricCall :=
  match report with
  | .None => []
  | .Err code =>
      ⟨"owm_error", decOne, []⟩ ::
      (match code with
       | some c => [⟨"owm_error", decOne, [("code", natToStr c)]⟩]
       | none => [])
  | .Ok report =>
      [⟨"owm_error", decZero, []⟩,
       ⟨"owm_temp", report.main.temp, [("unit", opts.units.units_temp)]⟩,
       ⟨"owm_temp_min", report.main.temp_min, [("unit", opts.units.units_temp)]⟩,
       ⟨"owm_temp_max", report.main.temp_max, [("unit", opts.units.units_temp)]⟩,
       ⟨"owm_feels_like", report.main.feels_like, [("unit", opts.units.units_temp)]⟩,
       ⟨"owm_humidity", report.main.humidity, [("unit", "percent")]⟩,
       ⟨"owm_pressure", report.main.pressure, [("unit", opts.units.units_pressure)]⟩,
       ⟨"owm_clouds_all", Dec.ofNat report.clouds.all, [("unit", "percent")]⟩] ++
      precipCalls "owm_rain_volume" "1h" report.rain.volume_1h ++
      precipCalls "owm_rain_volume" "3h" report.rain.volume_3h ++
      precipCalls "owm_snow_volume" "1h" report.snow.volume_1h ++
      precipCalls "owm_snow_volume" "3h" report.snow.volume_3h ++
      [⟨"owm_wind_direction", Dec.ofNat report.wind.deg, [("unit", "degrees")]⟩,
       ⟨"owm_wind_speed", report.wind.speed, [("unit", opts.units.units_speed)]⟩] ++
      conditionCalls report.weather ++
      visibilityCalls report.visibility

/-- The `export_report` function of `main.rs`: the metrics formatter. -/
def export_report (report : MaybeReport) (opts : Options) : String :=
  concatLines ((reportCalls report opts).map
    (fun c => exportMetric opts c.name c.value c.labels))

/-- The outbound query built at the top of `report_thread` in `main.rs`:
`lat`, `lon`, `appid`, and `units` pushed only when `api_param` is
`Some`. -/
def buildQuery (opts : Options) : List (String × String) :=
  [("lat", opts.coords.lat.render),
   ("lon", opts.coords.lon.render),
   ("appid", opts.api_key)] ++
  (match opts.units.api_param with
   | some unit => [("units", unit)]
   | none => [])

/-- Result of one outbound fetch attempt, as distinguished by the
`send → error_for_status → json` chain in `report_thread`:
a transport failure carries no status, `error_for_status` failures carry
the numeric HTTP status, and a decode failure of a 2xx body carries no
status (matching `reqwest::Error::status`). -/
inductive FetchResult where
  | success (report : Report)
  | httpError (status : Nat)
  | transportError
  | parseError
deriving DecidableEq, Repr

/-- Whether the fetch produced a parsed report. -/
def FetchResult.isSuccess : FetchResult → Bool
  | .success _ => true
  | _ => false

/-- The numeric HTTP status attached to the fetch error, if any; models
`reqwest::Error::status()`, which is `Some` exactly for errors produced
by `error_for_status`. -/
def FetchResult.httpStatus : FetchResult → Option Nat
  | .httpError st => some st
  | _ => none

/-- One iteration of the `loop` in `report_thread`: the outcome written
into the cell and the duration then slept.  Each iteration performs
exactly one fetch, one write and one sleep; there is no retry inside an
iteration. -/
def pollCycle (fr : FetchResult) (opts : Options) : MaybeReport × Dec :=
  match fr with
  | .success report => (MaybeReport.Ok report, opts.interval)
  | .httpError st => (MaybeReport.Err (some st), opts.backoff_interval)
  | .transportError => (MaybeReport.Err none, opts.backoff_interval)
  | .parseError => (MaybeReport.Err none, opts.backoff_interval)

/-- State of the `RwLock` guarding the outcome cell: how many read
guards are outstanding and whether a write guard is held. -/
structure LockState where
  readers : Nat
  writerActive : Bool
deriving DecidableEq, Repr

/-- Acquiring a read guard (`read()` in the handlers): succeeds when no
writer holds the lock. -/
def acquireRead (s : LockState) : Option LockState :=
  if s.writerActive = false then some { s with readers := s.readers + 1 }
  else none

/-- Releasing a read guard. -/
def releaseRead (s : LockState) : Option LockState :=
  match s.readers with
  | 0 => none
  | r + 1 => some { s with readers := r }

/-- `try_write()` semantics of `std::sync::RwLock`: succeeds exactly
when no reader and no writer holds the lock; never blocks. -/
def tryWrite (s : LockState) : Option LockState :=
  if s.readers = 0 && s.writerActive = false then
    some { s with writerActive := true }
  else none

/-- Result of the poller's write step `*lock.try_write().unwrap() = v`:
either the write guard is acquired, or `try_write` reported contention
and the `unwrap` panics (the contention branch). -/
inductive WriteResult where
  | written (s : LockState)
  | panicked
deriving DecidableEq, Repr

/-- The poller's write step on the outcome cell. -/
def pollerWriteStep (s : LockState) : WriteResult :=
  match tryWrite s with
  | some t => .written t
  | none => .panicked

/-- Structured JSON values, for the pass-through view served at `/json`. -/
inductive JsonValue where
  | null
  | num (value : Dec)
  | str (value : String)
  | arr (elems : List JsonValue)
  | obj (fields : List (String × JsonValue))
deriving Repr

/-- Serde serialization of `Coordinates`. -/
def coordToJson (c : Coordinates) : JsonValue :=
  .obj [("lat", .num c.lat), ("lon", .num c.lon)]

/-- Serde serialization of `ReportCondition`. -/
def conditionToJson (c : ReportCondition) : JsonValue :=
  .obj [("id", .num (Dec.ofNat c.id)), ("main", .str c.main),
        ("description", .str c.description), ("icon", .str c.icon)]

/-- Serde serialization of an optional number (`None` becomes `null`). -/
def optDecToJson : Option Dec → JsonValue
  | some v => .num v
  | none => .null

/-- Serde serialization of `Report`, field for field. -/
def reportToJson (r : Report) : JsonValue :=
  .obj [("coord", coordToJson r.coord),
        ("weather", .arr (r.weather.map conditionToJson)),
        ("main", .obj [("temp", .num r.main.temp),
                       ("feels_like", .num r.main.feels_like),
                       ("temp_min", .num r.main.temp_min),
                       ("temp_max", .num r.main.temp_max),
                       ("pressure", .num r.main.pressure),
                       ("humidity", .num r.main.humidity)]),
        ("wind", .obj [("speed", .num r.wind.speed),
                       ("deg", .num (Dec.ofNat r.wind.deg))]),
        ("rain", .obj [("volume_1h", optDecToJson r.rain.volume_1h),
                       ("volume_3h", optDecToJson r.rain.volume_3h)]),
        ("snow", .obj [("volume_1h", optDecToJson r.snow.volume_1h),
                       ("volume_3h", optDecToJson r.snow.volume_3h)]),
        ("clouds", .obj [("all", .num (Dec.ofNat r.clouds.all))]),
        ("visibility", match r.visibility with
                       | some v => .num (Dec.ofNat v)
                       | none => .null)]

/-- The `/json` handler body in `main`: the pass-through view of the
current outcome. -/
def jsonView : MaybeReport → JsonValue
  | .Ok r => reportToJson r
  | .None => .null
  | .Err e => .obj [("error", match e with
                              | some c => .num (Dec.ofNat c)
                              | none => .null)]

/-- The rendered text contributed by one optional precipitation volume:
one line when the volume is present, nothing when it is absent. -/
def volumeLine (opts : Options) (name period : String) : Option Dec → String
  | some v => exportMetric opts name v [("period", period), ("unit", "mm")]
  | none => ""

/-- The rendered text contributed by the condition loop: one line per
condition descriptor, value `1`, tagged with its description. -/
def conditionLines (opts : Options) (weather : List ReportCondition) : String :=
  concatLines (weather.map
    (fun c => exportMetric opts "owm_condition" decOne [("kind", c.description)]))

/-- The rendered text contributed by the optional visibility field. -/
def visibilityLine (opts : Options) : Option Nat → String
  | some v => exportMetric opts "owm_visiblity" (Dec.ofNat v) [("unit", "meters")]
  | none => ""

/-- Modelled from the spec: the emission order that claim C1 states for a
`Ready` outcome, in which the wind direction and wind speed lines belong
to the scalar group and precede every precipitation line.  This follows
the claim's words, not the source; it exists to be compared with
`reportCalls`. -/
def specOrderCalls (report : Report) (opts : Options) : List MetricCall :=
  [⟨"owm_error", decZero, []⟩,
   ⟨"owm_temp", report.main.temp, [("unit", opts.units.units_temp)]⟩,
   ⟨"owm_temp_min", report.main.temp_min, [("unit", opts.units.units_temp)]⟩,
   ⟨"owm_temp_max", report.main.temp_max, [("unit", opts.units.units_temp)]⟩,
   ⟨"owm_feels_like", report.main.feels_like, [("unit", opts.units.units_temp)]⟩,
   ⟨"owm_humidity", report.main.humidity, [("unit", "percent")]⟩,
   ⟨"owm_pressure", report.main.pressure, [("unit", opts.units.units_pressure)]⟩,
   ⟨"owm_clouds_all", Dec.ofNat report.clouds.all, [("unit", "percent")]⟩,
   ⟨"owm_wind_direction", Dec.ofNat report.wind.deg, [("unit", "degrees")]⟩,
   ⟨"owm_wind_speed", report.wind.speed, [("unit", opts.units.units_speed)]⟩] ++
  precipCalls "owm_rain_volume" "1h" report.rain.volume_1h ++
  precipCalls "owm_rain_volume" "3h" report.rain.volume_3h ++
  precipCalls "owm_snow_volume" "1h" report.snow.volume_1h ++
  precipCalls "owm_snow_volume" "3h" report.snow.volume_3h ++
  conditionCalls report.weather ++
  visibilityCalls report.visibility

/-- A concrete configuration: metric units, no location label. -/
def optsA : Options :=
  ⟨⟨⟨515, 1⟩, ⟨-1, 1⟩⟩, Units.Metric, "key", ⟨120, 0⟩, ⟨180, 0⟩, 8081, none⟩

/-- A configuration differing from `optsA` only in fields the formatter
never reads. -/
def optsB : Options := { optsA with api_key := "other", port := 9090 }

/-- A configuration with a fixed location label. -/
def optsLoc : Options := { optsA with location := some "home" }

/-- A concrete reading whose only precipitation volume is a 1-hour rain
volume of 0.5. -/
def rainReport : Report :=
  ⟨⟨⟨515, 1⟩, ⟨-1, 1⟩⟩,
   [⟨500, "Rain", "light rain", "10d"⟩],
   ⟨⟨10, 0⟩, ⟨9, 0⟩, ⟨8, 0⟩, ⟨11, 0⟩, ⟨1012, 0⟩, ⟨80, 0⟩⟩,
   ⟨⟨32, 1⟩, 180⟩,
   ⟨some ⟨5, 1⟩, none⟩,
   ⟨none, none⟩,
   ⟨90⟩,
   none⟩

/-- Characters allowed in a metric name or label key. -/
def isNameChar (c : Char) : Bool := c.isAlphanum || c == '_'

/-- Characters allowed in a rendered numeric value. -/
def isValueChar (c : Char) : Bool := c.isDigit || c == '-' || c == '.'

/-- Characters that keep a label value inside its surrounding quotes:
anything except a double quote, a backslash or a newline. -/
def isLabelValueChar (c : Char) : Bool :=
  !(c == '\"' || c == '\\' || c == '\n')

/-- A nonempty string of name characters. -/
abbrev GoodName (s : String) : Prop :=
  s.data ≠ [] ∧ ∀ c ∈ s.data, isNameChar c = true

/-- A label value with no quote, backslash or newline. -/
abbrev GoodLabelValue (s : String) : Prop :=
  ∀ c ∈ s.data, isLabelValueChar c = true

/-- A nonempty string of numeric-value characters. -/
abbrev GoodValueStr (s : String) : Prop :=
  s.data ≠ [] ∧ ∀ c ∈ s.data, isValueChar c = true

/-- Longest prefix of characters satisfying `p`, with the remainder. -/
def spanCh (p : Char → Bool) : List Char → List Char × List Char
  | [] => ([], [])
  | c :: cs =>
    if p c then
      let r := spanCh p cs
      (c :: r.1, r.2)
    else ([], c :: cs)

/-- Checks a numeric value followed by the terminating newline. -/
def checkValueNl (cs : List Char) : Bool :=
  let r := spanCh isValueChar cs
  !r.1.isEmpty && r.2 == ['\n']

/-- Parses one or more `key="value"` pairs separated by commas and
terminated by a closing brace, returning the remainder. -/
def parseLabelPairs : Nat → List Char → Option (List Char)
  | 0, _ => none
  | fuel + 1, cs =>
    let k := spanCh isNameChar cs
    if k.1.isEmpty then none
    else
      match k.2 with
      | c1 :: c2 :: rest =>
        if c1 == '=' && c2 == '\"' then
          let v := spanCh isLabelValueChar rest
          match v.2 with
          | q :: c3 :: rest2 =>
            if q == '\"' then
              if c3 == ',' then parseLabelPairs fuel rest2
              else if c3 == Char.ofNat 125 then some rest2
              else none
            else none
          | _ => none
        else none
      | _ => none

/-- Decides whether a string has the declared exposition line shape
`name` + optional brace-delimited label block + space + numeric value +
newline, with label values free of quotes, backslashes and newlines. -/
def lineWellFormed (s : String) : Bool :=
  let n := spanCh isNameChar s.data
  if n.1.isEmpty then false
  else
    match n.2 with
    | [] => false
    | c :: rest =>
      if c == ' ' then checkValueNl rest
      else if c == Char.ofNat 123 then
        match parseLabelPairs (rest.length + 1) rest with
        | some rest2 =>
          match rest2 with
          | c2 :: rest3 => c2 == ' ' && checkValueNl rest3
          | [] => false
        | none => false
      else false

theorem concatLines_append (a b : List String) :
    concatLines (a ++ b) = concatLines a ++ concatLines b := by
  induction a with
  | nil => simp [concatLines, String.empty_append]
  | cons s rest ih => simp [concatLines, ih, String.append_assoc]

theorem concat_map_precip (opts : Options) (nm p : String) (v : Option Dec) :
    concatLines ((precipCalls nm p v).map
      (fun c => exportMetric opts c.name c.value c.labels)) =
      volumeLine opts nm p v := by
  cases v <;> simp [precipCalls, volumeLine, concatLines, String.append_empty]

theorem concat_map_cond (opts : Options) (w : List ReportCondition) :
    concatLines ((conditionCalls w).map
      (fun c => exportMetric opts c.name c.value c.labels)) =
      conditionLines opts w := by
  simp [conditionCalls, conditionLines, List.map_map, Function.comp_def]

theorem concat_map_vis (opts : Options) (v : Option Nat) :
    concatLines ((visibilityCalls v).map
      (fun c => exportMetric opts c.name c.value c.labels)) =
      visibilityLine opts v := by
  cases v <;> simp [visibilityCalls, visibilityLine, concatLines, String.append_empty]

/-- C1 (amended): for every `Ready(reading)` outcome the formatter's
output is exactly: the error-indicator line with value 0; then the
temperature variants, humidity, pressure and cloud cover lines, each
tagged with its resolved unit label; then one line per present optional
precipitation volume, tagged with its period and the fixed unit `mm`
(absent volumes emit nothing); then the wind direction and wind speed
lines; then one condition line with value 1 per descriptor, tagged with
its description; then, only if visibility is present, the visibility
line with the fixed unit `meters`.  No other lines are emitted.  (The
original claim placed the wind lines before the precipitation lines;
the code emits them after.) -/
theorem ready_output_lines (r : Report) (opts : Options) :
    export_report (MaybeReport.Ok r) opts =
      exportMetric opts "owm_error" decZero [] ++
      exportMetric opts "owm_temp" r.main.temp
        [("unit", opts.units.units_temp)] ++
      exportMetric opts "owm_temp_min" r.main.temp_min
        [("unit", opts.units.units_temp)] ++
      exportMetric opts "owm_temp_max" r.main.temp_max
        [("unit", opts.units.units_temp)] ++
      exportMetric opts "owm_feels_like" r.main.feels_like
        [("unit", opts.units.units_temp)] ++
      exportMetric opts "owm_humidity" r.main.humidity
        [("unit", "percent")] ++
      exportMetric opts "owm_pressure" r.main.pressure
        [("unit", opts.units.units_pressure)] ++
      exportMetric opts "owm_clouds_all" (Dec.ofNat r.clouds.all)
        [("unit", "percent")] ++
      volumeLine opts "owm_rain_volume" "1h" r.rain.volume_1h ++
      volumeLine opts "owm_rain_volume" "3h" r.rain.volume_3h ++
      volumeLine opts "owm_snow_volume" "1h" r.snow.volume_1h ++
      volumeLine opts "owm_snow_volume" "3h" r.snow.volume_3h ++
      exportMetric opts "owm_wind_direction" (Dec.ofNat r.wind.deg)
        [("unit", "degrees")] ++
      exportMetric opts "owm_wind_speed" r.wind.speed
        [("unit", opts.units.units_speed)] ++
      conditionLines opts r.weather ++
      visibilityLine opts r.visibility := by
  simp only [export_report, reportCalls, List.append_eq, List.nil_append,
    List.append_assoc, List.map_append, concatLines_append,
    concat_map_precip, concat_map_cond, concat_map_vis, List.map_cons,
    List.map_nil, concatLines, String.append_empty, String.append_assoc]

set_option maxRecDepth 40000 in
/-- C1 (counterexample): on a reading whose only precipitation volume is
a 1-hour rain volume, the formatter's output differs from the claim's
stated order, which would put the wind direction and wind speed lines
before the rain line. -/
theorem ready_order_refuted :
    export_report (MaybeReport.Ok rainReport) optsA ≠
      concatLines ((specOrderCalls rainReport optsA).map
        (fun c => exportMetric optsA c.name c.value c.labels)) := by
  decide

/-- C3: a `Failed(status)` outcome formats to exactly the unconditional
error-indicator line with value 1 and, only when the status is present,
a second error-indicator line with value 1 carrying the numeric status
as a label; no other lines are emitted. -/
theorem failed_output_lines (st : Option Nat) (opts : Options) :
    export_report (MaybeReport.Err st) opts =
      (match st with
       | some c =>
           exportMetric opts "owm_error" decOne [] ++
           exportMetric opts "owm_error" decOne [("code", natToStr c)]
       | none => exportMetric opts "owm_error" decOne []) ∧
    (reportCalls (MaybeReport.Err st) opts).length =
      (match st with
       | some _ => 2
       | none => 1) := by
  cases st <;>
    simp [export_report, reportCalls, concatLines, String.append_empty,
      String.append_assoc]

/-- C5: the unit labels resolved by the three `Units` variants match the
fixed table (temperature `k`/`c`/`f`, speed `m/s`/`m/s`/`mph`, pressure
always `hPa`), and the outbound query carries a `units` parameter
exactly when the variant is not `Kelvin`, valued `metric` or
`imperial` accordingly. -/
theorem units_table_query (u : Units) (opts : Options) :
    u.units_temp = (match u with
                    | Units.Kelvin => "k"
                    | Units.Metric => "c"
                    | Units.Imperial => "f") ∧
    u.units_speed = (match u with
                     | Units.Imperial => "mph"
                     | _ => "m/s") ∧
    u.units_pressure = "hPa" ∧
    u.api_param = (match u with
                   | Units.Kelvin => none
                   | Units.Metric => some "metric"
                   | Units.Imperial => some "imperial") ∧
    ((buildQuery opts).filter (fun kv => kv.1 == "units") =
      match opts.units with
      | Units.Kelvin => []
      | Units.Metric => [("units", "metric")]
      | Units.Imperial => [("units", "imperial")]) := by
  refine ⟨?_, ?_, rfl, ?_, ?_⟩
  · cases u <;> rfl
  · cases u <;> rfl
  · cases u <;> rfl
  · cases hu : opts.units <;>
      simp [buildQuery, Units.api_param, hu, List.filter]

/-- C6: the `Unavailable` outcome formats to the empty string on the
metrics path, and the pass-through view renders an explicit null. -/
theorem unavailable_renders_empty (opts : Options) :
    export_report MaybeReport.None opts = "" ∧
    jsonView MaybeReport.None = JsonValue.null :=
  ⟨rfl, rfl⟩

/-- C9: the formatter output is a pure function of the outcome, the unit
system and the fixed label: two configurations agreeing on `units` and
`location` produce byte-identical output on every outcome, whatever
their other fields. -/
theorem export_report_pure (r : MaybeReport) (o1 o2 : Options)
    (hu : o1.units = o2.units) (hl : o1.location = o2.location) :
    export_report r o1 = export_report r o2 := by
  have hm : ∀ name value labels,
      exportMetric o1 name value labels = exportMetric o2 name value labels := by
    intro name value labels
    simp [exportMetric, effectiveLabels, hl]
  cases r <;>
    simp [export_report, reportCalls, hu, hm, precipCalls, conditionCalls,
      visibilityCalls]

/-- C9 witness: two configurations differing in the credential and the
port, but agreeing on units and location, format identically. -/
theorem export_report_pure_witness :
    export_report (MaybeReport.Ok rainReport) optsA =
      export_report (MaybeReport.Ok rainReport) optsB :=
  export_report_pure (MaybeReport.Ok rainReport) optsA optsB rfl rfl

/-- C8: when a fixed location label is configured, every line the
formatter can emit carries it appended after the line's own labels, and
the labels are rendered in their declared list order. -/
theorem location_label_appended (opts : Options) (loc : String)
    (h : opts.location = some loc) (name : String) (value : Dec)
    (labels : List (String × String)) :
    exportMetric opts name value labels =
      name ++ "\x7b" ++ renderLabelPairs (labels ++ [("location", loc)]) ++
        "\x7d" ++ " " ++ value.render ++ "\n" := by
  have hne : (labels ++ [("location", loc)]).isEmpty = false := by
    cases labels <;> rfl
  simp [exportMetric, effectiveLabels, h, renderLabelBlock, hne,
    String.append_assoc]

/-- C8 witness: a concrete render with the location label configured. -/
theorem location_label_appended_witness :
    exportMetric optsLoc "owm_error" decOne [] =
      "owm_error" ++ "\x7b" ++ renderLabelPairs [("location", "home")] ++
        "\x7d" ++ " " ++ decOne.render ++ "\n" :=
  location_label_appended optsLoc "home" rfl "owm_error" decOne []

/-- C4: each poll cycle writes `Ready(reading)` and then waits the
normal interval on parse success; on any failure it writes
`Failed(status)` and waits the backoff interval, the status being
present exactly when the failure was an error-status response.  A cycle
performs one fetch, one write and one wait, with no retry. -/
theorem poll_cycle_spec (fr : FetchResult) (opts : Options) :
    (∀ r, fr = FetchResult.success r →
        pollCycle fr opts = (MaybeReport.Ok r, opts.interval)) ∧
    (fr.isSuccess = false →
        pollCycle fr opts = (MaybeReport.Err fr.httpStatus, opts.backoff_interval)) ∧
    (∀ st, fr.httpStatus = some st ↔ fr = FetchResult.httpError st) := by
  refine ⟨?_, ?_, ?_⟩
  · intro r h
    subst h
    rfl
  · intro h
    cases fr <;>
      simp_all [pollCycle, FetchResult.isSuccess, FetchResult.httpStatus]
  · intro st
    cases fr <;> simp [FetchResult.httpStatus]

/-- C4 witness: a 503 error-status response yields a status-tagged
failure outcome and the backoff interval. -/
theorem poll_cycle_spec_witness :
    pollCycle (FetchResult.httpError 503) optsA =
      (MaybeReport.Err (some 503), optsA.backoff_interval) :=
  (poll_cycle_spec (FetchResult.httpError 503) optsA).2.1 rfl

/-- C2: in the interleaving in which one request handler holds a read
guard on the outcome cell when the poller attempts its write, the
poller's `try_write` reports contention and the `unwrap` panics: the
contention branch is reachable, so a concurrent reader does block (in
fact kill) the writer.  With no reader and no writer the write step
succeeds, as the claim expects of the writer-only interleavings. -/
theorem reader_contention_reaches_panic :
    acquireRead ⟨0, false⟩ = some ⟨1, false⟩ ∧
    pollerWriteStep ⟨1, false⟩ = WriteResult.panicked ∧
    pollerWriteStep ⟨0, false⟩ = WriteResult.written ⟨0, true⟩ := by
  decide

theorem data_mk (l : List Char) : (String.mk l).data = l := rfl

theorem data_empty : ("" : String).data = [] := rfl

theorem data_dash : ("-" : String).data = ['-'] := rfl

theorem data_dot : ("." : String).data = ['.'] := rfl

theorem data_space : (" " : String).data = [' '] := rfl

theorem data_nl : ("\n" : String).data = ['\n'] := rfl

theorem data_eq_quote : ("=\"" : String).data = ['=', '\"'] := rfl

theorem data_quote : ("\"" : String).data = ['\"'] := rfl

theorem data_comma : ("," : String).data = [','] := rfl

theorem data_brace_open : ("\x7b" : String).data = [Char.ofNat 123] := by decide

theorem data_brace_close : ("\x7d" : String).data = [Char.ofNat 125] := by decide

theorem spanCh_cons_neg (p : Char → Bool) (c : Char) (cs : List Char)
    (h : p c = false) : spanCh p (c :: cs) = ([], c :: cs) := by
  simp [spanCh, h]

theorem spanCh_append_all (p : Char → Bool) (a b : List Char)
    (h : ∀ c ∈ a, p c = true) :
    spanCh p (a ++ b) = (a ++ (spanCh p b).1, (spanCh p b).2) := by
  induction a with
  | nil => simp
  | cons c cs ih =>
    have hc : p c = true := h c (by simp)
    simp [spanCh, hc, ih (fun x hx => h x (by simp [hx]))]

theorem spanCh_exact (p : Char → Bool) (a : List Char) (c : Char)
    (b : List Char) (ha : ∀ x ∈ a, p x = true) (hc : p c = false) :
    spanCh p (a ++ c :: b) = (a, c :: b) := by
  rw [spanCh_append_all p a (c :: b) ha, spanCh_cons_neg p c b hc]
  simp

theorem digitChar_isDigit (n : Nat) : (digitChar n).isDigit = true := by
  have h : ∀ r < 10, (Char.ofNat (48 + r)).isDigit = true := by decide
  exact h (n % 10) (Nat.mod_lt _ (by decide))

theorem natDigitsAux_digits (fuel : Nat) :
    ∀ n : Nat, ∀ c ∈ natDigitsAux fuel n, c.isDigit = true := by
  induction fuel with
  | zero => simp [natDigitsAux]
  | succ f ih =>
    intro n c hc
    by_cases h : n < 10
    · simp [natDigitsAux, h] at hc
      subst hc
      exact digitChar_isDigit n
    · simp [natDigitsAux, h] at hc
      rcases hc with hc | hc
      · exact ih (n / 10) c hc
      · subst hc
        exact digitChar_isDigit (n % 10)

theorem natDigitsAux_ne_nil (fuel n : Nat) (h : fuel ≠ 0) :
    natDigitsAux fuel n ≠ [] := by
  cases fuel with
  | zero => exact absurd rfl h
  | succ f =>
    by_cases hn : n < 10 <;> simp [natDigitsAux, hn]

theorem natDigits_digits (n : Nat) : ∀ c ∈ natDigits n, c.isDigit = true :=
  natDigitsAux_digits (n + 1) n

theorem natDigits_ne_nil (n : Nat) : natDigits n ≠ [] :=
  natDigitsAux_ne_nil (n + 1) n (Nat.succ_ne_zero n)

theorem isValueChar_of_isDigit {c : Char} (h : c.isDigit = true) :
    isValueChar c = true := by
  simp [isValueChar, h]

theorem padZeros_valueChars (l : List Char) (len : Nat)
    (hl : ∀ c ∈ l, isValueChar c = true) :
    ∀ c ∈ padZeros l len, isValueChar c = true := by
  intro c hc
  simp only [padZeros, List.mem_append, List.mem_replicate] at hc
  rcases hc with ⟨-, rfl⟩ | hc
  · decide
  · exact hl c hc

theorem mem_concat_of (p : Char → Bool) (l1 l2 : List Char)
    (h1 : ∀ c ∈ l1, p c = true) (h2 : ∀ c ∈ l2, p c = true) :
    ∀ c ∈ l1 ++ l2, p c = true :=
  fun c hc => (List.mem_append.mp hc).elim (h1 c) (h2 c)

theorem render_eq (d : Dec) :
    d.render =
      (if d.m < 0 then "-" else "") ++
        (if d.e = 0 then natToStr d.m.natAbs
         else natToStr (d.m.natAbs / 10 ^ d.e) ++ "." ++
           String.mk (padZeros (natDigits (d.m.natAbs % 10 ^ d.e)) d.e)) := by
  unfold Dec.render
  by_cases he : d.e = 0 <;> simp [he, String.append_assoc]

theorem render_good (d : Dec) : GoodValueStr d.render := by
  have hdig : ∀ n : Nat, ∀ c ∈ natDigits n, isValueChar c = true :=
    fun n c hc => isValueChar_of_isDigit (natDigits_digits n c hc)
  have hdot : ∀ c ∈ ['.'], isValueChar c = true := by decide
  have hsign : ∀ c ∈ (if d.m < 0 then "-" else "" : String).data,
      isValueChar c = true := by
    by_cases hm : d.m < 0 <;> simp [hm, data_dash, data_empty]
    decide
  constructor
  · rw [render_eq]
    by_cases he : d.e = 0 <;> by_cases hm : d.m < 0 <;>
      simp [he, hm, natToStr, String.data_append, data_mk, data_empty,
        data_dash, data_dot, natDigits_ne_nil]
  · rw [render_eq]
    rw [String.data_append]
    refine mem_concat_of _ _ _ hsign ?_
    by_cases he : d.e = 0
    · simpa [he, natToStr, data_mk] using hdig d.m.natAbs
    · rw [if_neg he]
      rw [String.data_append, String.data_append, data_dot, data_mk]
      refine mem_concat_of _ _ _ (mem_concat_of _ _ _ ?_ hdot) ?_
      · simpa [natToStr, data_mk] using hdig (d.m.natAbs / 10 ^ d.e)
      · exact padZeros_valueChars _ _ (hdig (d.m.natAbs % 10 ^ d.e))

theorem isEmpty_false_of_ne_nil {α : Type} {l : List α} (h : l ≠ []) :
    l.isEmpty = false := by
  cases l with
  | nil => exact absurd rfl h
  | cons a as => rfl

theorem renderLabelPair_data (kv : String × String) :
    (renderLabelPair kv).data =
      kv.1.data ++ '=' :: '\"' :: (kv.2.data ++ ['\"']) := by
  simp [renderLabelPair, String.data_append, data_eq_quote, data_quote]

theorem renderLabelPairs_cons_cons (kv kv2 : String × String)
    (tl : List (String × String)) :
    renderLabelPairs (kv :: kv2 :: tl) =
      renderLabelPair kv ++ "," ++ renderLabelPairs (kv2 :: tl) := rfl

theorem checkValueNl_accepts (v : List Char) (hne : v ≠ [])
    (hall : ∀ c ∈ v, isValueChar c = true) :
    checkValueNl (v ++ ['\n']) = true := by
  unfold checkValueNl
  rw [show (v ++ ['\n'] : List Char) = v ++ '\n' :: [] from rfl,
    spanCh_exact isValueChar v '\n' [] hall (by decide)]
  simp [isEmpty_false_of_ne_nil hne]

theorem parseLabelPairs_accepts (el : List (String × String))
    (rest : List Char) (fuel : Nat) (hne : el ≠ [])
    (hgood : ∀ kv ∈ el, GoodName kv.1 ∧ GoodLabelValue kv.2)
    (hfuel : el.length ≤ fuel) :
    parseLabelPairs fuel
      ((renderLabelPairs el).data ++ Char.ofNat 125 :: rest) = some rest := by
  induction el generalizing fuel rest with
  | nil => exact absurd rfl hne
  | cons kv tl ih =>
    obtain ⟨⟨hk_ne, hk_all⟩, hv_all⟩ := hgood kv (by simp)
    cases fuel with
    | zero => simp at hfuel
    | succ f =>
      cases tl with
      | nil =>
        rw [show renderLabelPairs [kv] = renderLabelPair kv from rfl,
          renderLabelPair_data]
        have hinput :
            (kv.1.data ++ '=' :: '\"' :: (kv.2.data ++ ['\"'])) ++
                Char.ofNat 125 :: rest =
              kv.1.data ++ '=' :: '\"' ::
                (kv.2.data ++ '\"' :: Char.ofNat 125 :: rest) := by
          simp
        rw [hinput]
        unfold parseLabelPairs
        rw [spanCh_exact isNameChar kv.1.data '='
          ('\"' :: (kv.2.data ++ '\"' :: Char.ofNat 125 :: rest))
          hk_all (by decide)]
        rw [if_neg (by simp [isEmpty_false_of_ne_nil hk_ne])]
        simp only []
        rw [if_pos (by decide)]
        rw [spanCh_exact isLabelValueChar kv.2.data '\"'
          (Char.ofNat 125 :: rest) hv_all (by decide)]
        simp only []
        rw [if_pos (by decide), if_neg (by decide), if_pos (by decide)]
      | cons kv2 tl2 =>
        rw [renderLabelPairs_cons_cons, String.data_append,
          String.data_append, renderLabelPair_data, data_comma]
        have hinput :
            ((kv.1.data ++ '=' :: '\"' :: (kv.2.data ++ ['\"'])) ++ [','] ++
                  (renderLabelPairs (kv2 :: tl2)).data) ++
                Char.ofNat 125 :: rest =
              kv.1.data ++ '=' :: '\"' ::
                (kv.2.data ++ '\"' :: ',' ::
                  ((renderLabelPairs (kv2 :: tl2)).data ++
                    Char.ofNat 125 :: rest)) := by
          simp
        rw [hinput]
        unfold parseLabelPairs
        rw [spanCh_exact isNameChar kv.1.data '='
          ('\"' :: (kv.2.data ++ '\"' :: ',' ::
            ((renderLabelPairs (kv2 :: tl2)).data ++ Char.ofNat 125 :: rest)))
          hk_all (by decide)]
        rw [if_neg (by simp [isEmpty_false_of_ne_nil hk_ne])]
        simp only []
        rw [if_pos (by decide)]
        rw [spanCh_exact isLabelValueChar kv.2.data '\"'
          (',' :: ((renderLabelPairs (kv2 :: tl2)).data ++
            Char.ofNat 125 :: rest)) hv_all (by decide)]
        simp only []
        rw [if_pos (by decide), if_pos (by decide)]
        exact ih rest f (by simp)
          (fun x hx => hgood x (List.mem_cons_of_mem kv hx))
          (by simpa using Nat.le_of_succ_le_succ hfuel)

theorem renderLabelPairs_data_len (el : List (String × String)) :
    el.length ≤ (renderLabelPairs el).data.length := by
  induction el with
  | nil => simp [renderLabelPairs]
  | cons kv tl ih =>
    cases tl with
    | nil =>
      simp only [renderLabelPairs, renderLabelPair_data, List.length_append,
        List.length_cons, List.length_singleton, List.length_nil]
      omega
    | cons kv2 tl2 =>
      rw [renderLabelPairs_cons_cons, String.data_append, String.data_append,
        data_comma]
      simp only [List.length_append, List.length_cons, List.length_nil] at *
      omega

theorem effective_good (opts : Options) (labels : List (String × String))
    (h2 : ∀ kv ∈ labels, GoodName kv.1 ∧ GoodLabelValue kv.2)
    (h3 : ∀ loc, opts.location = some loc → GoodLabelValue loc) :
    ∀ kv ∈ effectiveLabels opts labels, GoodName kv.1 ∧ GoodLabelValue kv.2 := by
  intro kv hkv
  unfold effectiveLabels at hkv
  cases hl : opts.location with
  | none =>
    rw [hl] at hkv
    exact h2 kv hkv
  | some loc =>
    rw [hl] at hkv
    rcases List.mem_append.mp hkv with hkv | hkv
    · exact h2 kv hkv
    · rcases List.mem_singleton.mp hkv with rfl
      refine ⟨?_, h3 loc hl⟩
      show GoodName "location"
      decide

theorem exportMetric_data (opts : Options) (name : String) (value : Dec)
    (labels : List (String × String)) :
    (exportMetric opts name value labels).data =
      name.data ++ ((renderLabelBlock (effectiveLabels opts labels)).data ++
        ' ' :: (value.render.data ++ ['\n'])) := by
  simp [exportMetric, String.data_append, data_space, data_nl]

theorem renderLabelBlock_data_ne (l : List (String × String)) (h : l ≠ []) :
    (renderLabelBlock l).data =
      Char.ofNat 123 :: ((renderLabelPairs l).data ++ [Char.ofNat 125]) := by
  rw [renderLabelBlock, if_neg (by simp [isEmpty_false_of_ne_nil h])]
  simp [String.data_append, data_brace_open, data_brace_close]

/-- C7: every line the formatter's line producer emits has the exact
declared shape: the metric name, then the label block (omitted entirely
when no labels apply), a space, the numeric value in its decimal
rendering, and a terminating newline — and, whenever the name, the
label keys and the label values are made of the permitted characters,
the grammar checker `lineWellFormed` accepts the line. -/
theorem metric_line_shape (opts : Options) (name : String) (value : Dec)
    (labels : List (String × String))
    (h1 : GoodName name)
    (h2 : ∀ kv ∈ labels, GoodName kv.1 ∧ GoodLabelValue kv.2)
    (h3 : ∀ loc, opts.location = some loc → GoodLabelValue loc) :
    exportMetric opts name value labels =
      name ++ renderLabelBlock (effectiveLabels opts labels) ++ " " ++
        value.render ++ "\n" ∧
    lineWellFormed (exportMetric opts name value labels) = true := by
  obtain ⟨hn_ne, hn_all⟩ := h1
  obtain ⟨hv_ne, hv_all⟩ := render_good value
  refine ⟨rfl, ?_⟩
  have hel := effective_good opts labels h2 h3
  have hemp : name.data.isEmpty = false := isEmpty_false_of_ne_nil hn_ne
  by_cases hcase : effectiveLabels opts labels = []
  · have hblock : (renderLabelBlock (effectiveLabels opts labels)).data = [] := by
      rw [hcase]
      rfl
    have hspan := spanCh_exact isNameChar name.data ' '
      (value.render.data ++ ['\n']) hn_all (by decide)
    simp only [lineWellFormed, exportMetric_data, hblock, List.nil_append,
      hspan, hemp, Bool.false_eq_true, if_false]
    simp only [show (' ' == ' ') = true by decide, if_true]
    exact checkValueNl_accepts _ hv_ne hv_all
  · have hblock := renderLabelBlock_data_ne _ hcase
    have hinput :
        name.data ++ ((renderLabelBlock (effectiveLabels opts labels)).data ++
            ' ' :: (value.render.data ++ ['\n'])) =
          name.data ++ Char.ofNat 123 ::
            ((renderLabelPairs (effectiveLabels opts labels)).data ++
              Char.ofNat 125 :: ' ' :: (value.render.data ++ ['\n'])) := by
      rw [hblock]
      simp
    have hspan := spanCh_exact isNameChar name.data (Char.ofNat 123)
      ((renderLabelPairs (effectiveLabels opts labels)).data ++
        Char.ofNat 125 :: ' ' :: (value.render.data ++ ['\n']))
      hn_all (by decide)
    have hpairs := parseLabelPairs_accepts (effectiveLabels opts labels)
      (' ' :: (value.render.data ++ ['\n']))
      (((renderLabelPairs (effectiveLabels opts labels)).data ++
        Char.ofNat 125 :: ' ' :: (value.render.data ++ ['\n'])).length + 1)
      hcase hel
      (by
        have := renderLabelPairs_data_len (effectiveLabels opts labels)
        simp only [List.length_append, List.length_cons]
        omega)
    simp only [lineWellFormed, exportMetric_data, hinput, hspan, hemp,
      Bool.false_eq_true, if_false]
    simp only [show (Char.ofNat 123 == ' ') = false by decide,
      show (Char.ofNat 123 == Char.ofNat 123) = true by decide,
      Bool.false_eq_true, if_false, if_true]
    rw [hpairs]
    simp only [show (' ' == ' ') = true by decide, Bool.true_and]
    exact checkValueNl_accepts _ hv_ne hv_all

/-- C7 witness: a concrete well-formed line. -/
theorem metric_line_shape_witness :
    (exportMetric optsA "owm_temp" decZero [("unit", "c")] =
      "owm_temp" ++
        renderLabelBlock (effectiveLabels optsA [("unit", "c")]) ++ " " ++
        decZero.render ++ "\n") ∧
    lineWellFormed (exportMetric optsA "owm_temp" decZero [("unit", "c")]) =
      true :=
  metric_line_shape optsA "owm_temp" decZero [("unit", "c")]
    (by decide) (by decide) (fun loc h => Option.noConfusion h)

theorem renderLabelPairs_mem (l : List (String × String)) (k v : String)
    (h : (k, v) ∈ l) :
    ∃ a b : List Char,
      (renderLabelPairs l).data = a ++ '\"' :: (v.data ++ '\"' :: b) := by
  induction l with
  | nil => cases h
  | cons kv tl ih =>
    rcases List.mem_cons.mp h with heq | hmem
    · subst heq
      cases tl with
      | nil =>
        refine ⟨k.data ++ ['='], [], ?_⟩
        rw [show renderLabelPairs [(k, v)] = renderLabelPair (k, v) from rfl,
          renderLabelPair_data]
        simp
      | cons kv2 tl2 =>
        refine ⟨k.data ++ ['='],
          ',' :: (renderLabelPairs (kv2 :: tl2)).data, ?_⟩
        rw [renderLabelPairs_cons_cons, String.data_append,
          String.data_append, data_comma, renderLabelPair_data]
        simp
    · cases tl with
      | nil => cases hmem
      | cons kv2 tl2 =>
        obtain ⟨a, b, hab⟩ := ih hmem
        refine ⟨(renderLabelPair kv).data ++ ',' :: a, b, ?_⟩
        rw [renderLabelPairs_cons_cons, String.data_append,
          String.data_append, data_comma, hab]
        simp

set_option maxRecDepth 8000 in
/-- C10: label values are interpolated verbatim, with no escaping: every
label pair of a line contributes its value's characters unmodified
between the surrounding double quotes — and a label value that itself
contains a double quote yields a line the declared grammar no longer
accepts. -/
theorem label_values_verbatim (opts : Options) (name : String) (value : Dec)
    (labels : List (String × String)) (k v : String)
    (hmem : (k, v) ∈ effectiveLabels opts labels) :
    (∃ a b : List Char,
      (exportMetric opts name value labels).data =
        a ++ '\"' :: (v.data ++ '\"' :: b)) ∧
    lineWellFormed (exportMetric optsA "owm_condition" decOne
      [("kind", "overcast \"clouds\"")]) = false := by
  constructor
  · have hne : effectiveLabels opts labels ≠ [] := by
      intro h
      rw [h] at hmem
      cases hmem
    obtain ⟨a, b, hab⟩ := renderLabelPairs_mem _ k v hmem
    refine ⟨name.data ++ Char.ofNat 123 :: a,
      b ++ Char.ofNat 125 :: ' ' :: (value.render.data ++ ['\n']), ?_⟩
    rw [exportMetric_data, renderLabelBlock_data_ne _ hne, hab]
    simp
  · decide

/-- C10 witness: a concrete line carrying the label value `x` verbatim,
and the concrete quote-containing value that breaks the line format. -/
theorem label_values_verbatim_witness :
    (∃ a b : List Char,
      (exportMetric optsA "owm_condition" decOne [("kind", "x")]).data =
        a ++ '\"' :: (("x" : String).data ++ '\"' :: b)) ∧
    lineWellFormed (exportMetric optsA "owm_condition" decOne
      [("kind", "overcast \"clouds\"")]) = false :=
  label_values_verbatim optsA "owm_condition" decOne [("kind", "x")]
    "kind" "x" (by decide)

end OWM
